import Mathlib

/-!
Verification development for the Tutel MoE JIT kernel layer.

The embedded code consists of the two JIT front-ends:

* `src/tutel/jit.py` — the distributed variant.  Module init asserts CUDA
  availability, imports `tutel_custom_kernel`, resolves `IS_HIP_EXTENSION`
  (default `False` on import failure) and `dist_rank` (default `0` on
  failure), and defines `JitKernel.create(source)` which mints a handle
  from the class counter `__CTX__`, writes a preamble plus `source` to a
  fresh temp location and renames it to `/tmp/{ctx}-{key}.cu`, returning a
  closure forwarding `(inputs, ctx, key)` to `tutel_custom_kernel.invoke`.

* `src/src/moe/jit.py` — the non-distributed variant: same counter and
  staging logic, final path `/tmp/{ctx}.cu`, closure forwards
  `(inputs, ctx)` to `custom_kernel.invoke`.

* `src/src/moe/jit_kernels/sparse_fp16.py` — kernel templates, specialized
  via Python's `str.replace('@capacity@', str(shared_data.capacity))`.

Effects (filesystem writes, the backend `invoke` call, runtime init) are
embedded explicitly: `create` returns, besides the new counter state, the
trace of filesystem events it performs and the closure as a pure function
from a buffer list to the argument record handed to the backend.
-/

namespace Tutel

/-- The HIP preamble written by `JitKernel.create` when `IS_HIP_EXTENSION`
is true (`src/tutel/jit.py` line 36, `src/src/moe/jit.py` line 22). -/
def hipPreamble : String :=
  "#include <hip/hip_runtime.h>\n#include <hip/hip_fp16.h>\n"

/-- The CUDA preamble written by `JitKernel.create` when `IS_HIP_EXTENSION`
is false (`src/tutel/jit.py` line 38, `src/src/moe/jit.py` line 24). -/
def cudaPreamble : String :=
  "#include <cuda_runtime.h>\n#include <cuda_fp16.h>\n"

/-- The preamble selected by the `if IS_HIP_EXTENSION` branch inside
`JitKernel.create` in both variants. -/
def preamble (isHip : Bool) : String :=
  if isHip then hipPreamble else cudaPreamble

/-- `IS_HIP_EXTENSION` resolution (`src/tutel/jit.py` lines 13-16,
`src/src/moe/jit.py` lines 5-8): the result of
`from torch.utils.cpp_extension import IS_HIP_EXTENSION`, or `False` when
that import raises. -/
def resolveIsHip : Except String Bool → Bool
  | Except.ok b => b
  | Except.error _ => false

/-- `dist_rank` resolution (`src/tutel/jit.py` lines 18-21): the result of
`torch.distributed.get_rank()`, or `0` when that call raises. -/
def resolveDistRank : Except String Nat → Nat
  | Except.ok r => r
  | Except.error _ => 0

/-- The `JitKernel` class state: `none` models the `__CTX__` attribute not
existing yet (`hasattr` false), `some c` models `JitKernel.__CTX__ == c`. -/
structure JitClassState where
  ctx : Option Nat
deriving Repr, DecidableEq

/-- Filesystem-visible events performed by one `JitKernel.create` call,
in program order. -/
inductive FsEvent where
  /-- `open(path, 'w')`: create/truncate `path` for writing. -/
  | openWrite (path : String)
  /-- `fp.write(text)` appending `text` to the open file at `path`. -/
  | write (path : String) (text : String)
  /-- closing the file at `path` (end of the `with` block). -/
  | close (path : String)
  /-- `os.rename(src, dst)`: atomically move `src` to `dst`. -/
  | rename (src : String) (dst : String)
deriving Repr, DecidableEq

/-- The argument record the distributed bound callable hands to
`tutel_custom_kernel.invoke(inputs, __ctx__, key)`
(`src/tutel/jit.py` lines 42-43). -/
structure InvokeCall (α : Type) where
  buffers : List α
  handle : Nat
  key : Nat
deriving Repr, DecidableEq

/-- The argument record the non-distributed bound callable hands to
`custom_kernel.invoke(inputs, __ctx__)` (`src/src/moe/jit.py` lines 28-29). -/
structure InvokeCallN (α : Type) where
  buffers : List α
  handle : Nat
deriving Repr, DecidableEq

/-- Everything one call to the distributed `JitKernel.create` produces:
the minted handle, the updated class state, whether `torch.cuda.init()`
ran, the filesystem event trace, the full text written, the temp and final
paths, and the returned closure `func` as a pure function from the buffer
list to the backend call it performs. -/
structure CreateResult (α : Type) where
  handle : Nat
  state : JitClassState
  didInit : Bool
  events : List FsEvent
  fileContent : String
  tempPath : String
  finalPath : String
  func : List α → InvokeCall α

/-- Same for the non-distributed `JitKernel.create` of `src/src/moe/jit.py`. -/
structure CreateResultN (α : Type) where
  handle : Nat
  state : JitClassState
  didInit : Bool
  events : List FsEvent
  fileContent : String
  tempPath : String
  finalPath : String
  func : List α → InvokeCallN α

/-- `JitKernel.create(source)` of `src/tutel/jit.py` (lines 24-44).
Parameters that the Python code reads from ambient process state are
explicit: `isHip` is `IS_HIP_EXTENSION`, `key` is `dist_rank`, `mktemp` is
the string returned by `tempfile.mktemp()` for this call, `st` is the
current `JitKernel` class state. -/
def JitKernel.create (α : Type) (isHip : Bool) (key : Nat) (mktemp : String)
    (st : JitClassState) (source : String) : CreateResult α :=
  let didInit := st.ctx.isNone
  let ctx := st.ctx.getD 0
  let st' : JitClassState := ⟨some (ctx + 1)⟩
  let tempLoc := mktemp ++ "-" ++ toString ctx ++ ".MoE"
  let finalLoc := "/tmp/" ++ toString ctx ++ "-" ++ toString key ++ ".cu"
  { handle := ctx
    state := st'
    didInit := didInit
    events := [FsEvent.openWrite tempLoc,
               FsEvent.write tempLoc (preamble isHip),
               FsEvent.write tempLoc source,
               FsEvent.close tempLoc,
               FsEvent.rename tempLoc finalLoc]
    fileContent := preamble isHip ++ source
    tempPath := tempLoc
    finalPath := finalLoc
    func := fun inputs => { buffers := inputs, handle := ctx, key := key } }

/-- `JitKernel.create(source)` of `src/src/moe/jit.py` (lines 10-30), the
non-distributed variant: no `key`, final path `/tmp/{ctx}.cu`, closure
forwards `(inputs, ctx)`. -/
def JitKernel.createN (α : Type) (isHip : Bool) (mktemp : String)
    (st : JitClassState) (source : String) : CreateResultN α :=
  let didInit := st.ctx.isNone
  let ctx := st.ctx.getD 0
  let st' : JitClassState := ⟨some (ctx + 1)⟩
  let tempLoc := mktemp ++ "-" ++ toString ctx ++ ".MoE"
  let finalLoc := "/tmp/" ++ toString ctx ++ ".cu"
  { handle := ctx
    state := st'
    didInit := didInit
    events := [FsEvent.openWrite tempLoc,
               FsEvent.write tempLoc (preamble isHip),
               FsEvent.write tempLoc source,
               FsEvent.close tempLoc,
               FsEvent.rename tempLoc finalLoc]
    fileContent := preamble isHip ++ source
    tempPath := tempLoc
    finalPath := finalLoc
    func := fun inputs => { buffers := inputs, handle := ctx } }

/-- The recognized artifact path of the distributed variant,
`f'/tmp/{handle}-{key}.cu'` (`src/tutel/jit.py` line 40). -/
def recognizedPathDist (handle key : Nat) : String :=
  "/tmp/" ++ toString handle ++ "-" ++ toString key ++ ".cu"

/-- The recognized artifact path of the non-distributed variant,
`f'/tmp/{handle}.cu'` (`src/src/moe/jit.py` line 26). -/
def recognizedPathNonDist (handle : Nat) : String :=
  "/tmp/" ++ toString handle ++ ".cu"

/-- Run a sequence of sequential (non-overlapping) distributed
`JitKernel.create` calls, one per source string, threading the class state
and collecting the returned handles in call order. -/
def runCreates (st : JitClassState) : List String → List Nat × JitClassState
  | [] => ([], st)
  | source :: rest =>
    let r := JitKernel.create Unit false 0 "" st source
    let (hs, st') := runCreates r.state rest
    (r.handle :: hs, st')

/-! ### Interleaved execution of the counter section

`JitKernel.create` manipulates the class counter with two separate Python
statements (`src/tutel/jit.py` lines 26-30, identically
`src/src/moe/jit.py` lines 13-17):

    if not hasattr(JitKernel, '__CTX__'):   # step 0 (with the seeding)
        torch.cuda.init()
        JitKernel.__CTX__ = 0
    __ctx__ = JitKernel.__CTX__             # step 1
    JitKernel.__CTX__ += 1                  # step 2

To examine concurrent calling within one process we model two threads each
executing these three statements on the shared attribute, a statement at a
time (granting each whole statement atomicity, which is generous: CPython
only guarantees atomicity per bytecode instruction). -/

/-- Per-thread progress through the counter section of one `create` call:
`pc` counts completed statements (3 = call finished), `localCtx` is the
thread's `__ctx__` local, meaningful once `pc ≥ 2`. -/
structure ThreadView where
  pc : Nat
  localCtx : Nat
deriving Repr, DecidableEq

/-- Shared plus per-thread state for two in-flight `create` calls:
`ctx` is the `JitKernel.__CTX__` attribute (`none` = not yet set). -/
structure RaceState where
  ctx : Option Nat
  ta : ThreadView
  tb : ThreadView
deriving Repr, DecidableEq

/-- Thread identifiers for the two-call interleaving. -/
inductive Tid where
  | a
  | b
deriving Repr, DecidableEq

/-- Execute the next statement of one thread's counter section:
statement 0 is the `hasattr` guard with its seeding, statement 1 reads the
counter into the local, statement 2 increments the counter. -/
def threadStep (view : ThreadView) (ctx : Option Nat) :
    ThreadView × Option Nat :=
  match view.pc with
  | 0 => (⟨1, view.localCtx⟩, some (ctx.getD 0))
  | 1 => (⟨2, ctx.getD 0⟩, ctx)
  | 2 => (⟨3, view.localCtx⟩, some (ctx.getD 0 + 1))
  | _ => (view, ctx)

/-- One scheduler step: run the next statement of the chosen thread. -/
def raceStep (s : RaceState) : Tid → RaceState
  | Tid.a =>
    let (v, c) := threadStep s.ta s.ctx
    { s with ta := v, ctx := c }
  | Tid.b =>
    let (v, c) := threadStep s.tb s.ctx
    { s with tb := v, ctx := c }

/-- Run a schedule (a list of thread choices) from a state. -/
def runSched (s : RaceState) (sched : List Tid) : RaceState :=
  sched.foldl raceStep s

/-- The process start state: `__CTX__` unset, neither call started. -/
def raceInit : RaceState :=
  ⟨none, ⟨0, 0⟩, ⟨0, 0⟩⟩

/-! ### Staging filesystem model

A toy filesystem (association list from path to content) on which the
`FsEvent` trace of a `create` call is replayed, to state what an external
reader can observe at the recognized path after any prefix of the call's
events. -/

/-- Content at `path`, `none` when no file exists there. -/
def fsGet (path : String) : List (String × String) → Option String
  | [] => none
  | (q, c) :: rest => if q = path then some c else fsGet path rest

/-- Remove any entry at `path`. -/
def fsRemove (path : String) : List (String × String) → List (String × String)
  | [] => []
  | (q, c) :: rest =>
    if q = path then fsRemove path rest else (q, c) :: fsRemove path rest

/-- POSIX-style effect of one event: `open(…, 'w')` creates/truncates,
`write` appends to the open file, `close` changes nothing observable,
`rename` atomically replaces the destination with the source's content. -/
def applyEvent (fs : List (String × String)) : FsEvent → List (String × String)
  | FsEvent.openWrite p => (p, "") :: fsRemove p fs
  | FsEvent.write p t =>
    match fsGet p fs with
    | some c => (p, c ++ t) :: fsRemove p fs
    | none => fs
  | FsEvent.close _ => fs
  | FsEvent.rename src dst =>
    match fsGet src fs with
    | some c => (dst, c) :: fsRemove dst (fsRemove src fs)
    | none => fs

/-- Replay an event list on a filesystem. -/
def runEvents (fs : List (String × String)) (evts : List FsEvent) :
    List (String × String) :=
  evts.foldl applyEvent fs

/-! ### Textual specialization

`src/src/moe/jit_kernels/sparse_fp16.py` builds every kernel source by
`template.replace('@capacity@', str(shared_data.capacity))` before handing
it to `JitKernel.create`. -/

/-- Python's `str.replace` on character lists for a non-empty pattern:
scan left to right; wherever the remainder starts with `pat` emit `rep`
and skip the matched characters, otherwise keep one character.  `fuel`
(instantiated with the input length) only serves structural recursion. -/
def replaceAux (pat rep : List Char) : Nat → List Char → List Char
  | _, [] => []
  | 0, s => s
  | fuel + 1, c :: rest =>
    if pat.isPrefixOf (c :: rest) ∧ pat ≠ [] then
      rep ++ replaceAux pat rep fuel (List.drop (pat.length - 1) rest)
    else
      c :: replaceAux pat rep fuel rest

/-- Python's `s.replace(pat, rep)` for non-empty `pat`. -/
def pyReplace (s pat rep : String) : String :=
  ⟨replaceAux pat.data rep.data s.data.length s.data⟩

/-- `template.replace('@capacity@', str(capacity))` as performed by every
kernel definition in `src/src/moe/jit_kernels/sparse_fp16.py`. -/
def specializeSource (template : String) (capacity : Nat) : String :=
  pyReplace template "@capacity@" (toString capacity)

/-! ### Module initialization

Top-level statements of the two modules, with the ambient conditions the
Python code queries made explicit.  A Python exception during import is an
`Except.error` carrying the exception message. -/

/-- The message of the `assert torch.cuda.is_available() == True` at
`src/tutel/jit.py` line 6. -/
def cudaAssertMsg : String :=
  "This version of Tutel MoE only supports CUDA. More backends will be supported soon."

/-- The message of the exception raised at `src/tutel/jit.py` lines 8-11
when `import tutel_custom_kernel` fails. -/
def missingKernelMsg : String :=
  "Cannot import JIT optimized kernels. Did you forget to install Custom Kernel Extension?"

/-- The process-level state a successful import of `src/tutel/jit.py`
leaves behind: the resolved platform flag, the resolved rank, and the
`JitKernel` class with its `__CTX__` attribute still unset. -/
structure TutelModule where
  isHip : Bool
  distRank : Nat
  jitState : JitClassState
deriving Repr, DecidableEq

/-- Importing `src/tutel/jit.py` (lines 1-21): assert CUDA availability,
load `tutel_custom_kernel` (re-raised with `missingKernelMsg` on failure),
resolve `IS_HIP_EXTENSION` and `dist_rank` with their fallback defaults. -/
def tutelJitModuleInit (cudaAvailable : Bool) (customKernelImport : Except String Unit)
    (hipImport : Except String Bool) (getRank : Except String Nat) :
    Except String TutelModule :=
  if !cudaAvailable then
    Except.error cudaAssertMsg
  else
    match customKernelImport with
    | Except.error _ => Except.error missingKernelMsg
    | Except.ok () =>
      Except.ok { isHip := resolveIsHip hipImport
                  distRank := resolveDistRank getRank
                  jitState := ⟨none⟩ }

/-- The process-level state a successful import of `src/src/moe/jit.py`
leaves behind. -/
structure MoeModule where
  isHip : Bool
  jitState : JitClassState
deriving Repr, DecidableEq

/-- Importing `src/src/moe/jit.py` (lines 1-8): `import custom_kernel`
propagates its own `ImportError` unchanged, then `IS_HIP_EXTENSION` is
resolved with its fallback default. -/
def moeJitModuleInit (customKernelImport : Except String Unit)
    (hipImport : Except String Bool) : Except String MoeModule :=
  match customKernelImport with
  | Except.error e => Except.error e
  | Except.ok () =>
    Except.ok { isHip := resolveIsHip hipImport, jitState := ⟨none⟩ }

/-! ## Helper lemmas -/

/-- A staged temp path (suffix `.MoE`) never coincides with a recognized
path (suffix `.cu`): the last characters differ. -/
theorem temp_suffix_ne (x y : String) : x ++ ".MoE" ≠ y ++ ".cu" := by
  intro h
  have h2 : (x ++ ".MoE").data.reverse.head? = (y ++ ".cu").data.reverse.head? := by
    rw [h]
  rw [String.data_append x ".MoE", String.data_append y ".cu",
    List.reverse_append, List.reverse_append] at h2
  have h3 : (some 'E' : Option Char) = some 'u' := h2
  exact absurd (Option.some.inj h3) (by decide)

/-- Replaying any prefix of the event trace
`open T; write T pre; write T src; close T; rename T F` on an empty
filesystem shows `F` either absent or holding the complete text
`pre ++ src`, provided `T ≠ F`. -/
theorem staged_trace_safe (T F pre src : String) (hTF : T ≠ F) (i : Nat) :
    fsGet F (runEvents [] (List.take i
        [FsEvent.openWrite T, FsEvent.write T pre, FsEvent.write T src,
         FsEvent.close T, FsEvent.rename T F])) = none
    ∨ fsGet F (runEvents [] (List.take i
        [FsEvent.openWrite T, FsEvent.write T pre, FsEvent.write T src,
         FsEvent.close T, FsEvent.rename T F])) = some (pre ++ src) := by
  rcases i with _ | _ | _ | _ | _ | i
  · exact Or.inl rfl
  · exact Or.inl (by simp [runEvents, applyEvent, fsGet, hTF])
  · exact Or.inl (by simp [runEvents, applyEvent, fsGet, fsRemove, hTF])
  · exact Or.inl (by simp [runEvents, applyEvent, fsGet, fsRemove, hTF])
  · exact Or.inl (by simp [runEvents, applyEvent, fsGet, fsRemove, hTF])
  · refine Or.inr ?_
    simp [List.take, runEvents, applyEvent, fsGet, fsRemove, hTF]

/-- Sequential `create` calls starting from counter value `c` hand out the
handles `c, c+1, …` in call order. -/
theorem runCreates_fst_of_some (sources : List String) :
    ∀ c : Nat, (runCreates ⟨some c⟩ sources).fst = List.range' c sources.length := by
  induction sources with
  | nil => intro c; rfl
  | cons s rest ih =>
    intro c
    simp [runCreates, JitKernel.create, List.range'_succ, ih (c + 1)]

/-! ## Claims -/

/-- C1 (counterexample): under concurrent calling the handles are not
unique.  In the statement-interleaved execution of two `create` calls from
the fresh process state, the schedule a,b,a,b,a,b lets both calls run the
`hasattr` guard, then both read `__CTX__ == 0`, then both increment: both
calls complete (pc 3) and both return handle 0, while the counter ends at
2, so the handles are not `0, 1` each exactly once. -/
theorem create_concurrent_handle_collision :
    (runSched raceInit [Tid.a, Tid.b, Tid.a, Tid.b, Tid.a, Tid.b]).ta.pc = 3
  ∧ (runSched raceInit [Tid.a, Tid.b, Tid.a, Tid.b, Tid.a, Tid.b]).tb.pc = 3
  ∧ (runSched raceInit [Tid.a, Tid.b, Tid.a, Tid.b, Tid.a, Tid.b]).ta.localCtx = 0
  ∧ (runSched raceInit [Tid.a, Tid.b, Tid.a, Tid.b, Tid.a, Tid.b]).tb.localCtx = 0
  ∧ (runSched raceInit [Tid.a, Tid.b, Tid.a, Tid.b, Tid.a, Tid.b]).ctx = some 2 := by
  decide

/-- C1 (amended): the first `create` call performs the one-time
initialization and seeds the counter at 0; every call returns the
pre-increment counter value as its handle and leaves the counter
incremented by one; hence every sequence of N sequential (non-overlapping)
`create` calls hands out exactly the handles 0, …, N-1, each once, in call
order.  (The concurrent-calling part of the claim fails, see the
counterexample: the counter read and increment are separate unsynchronized
statements.) -/
theorem create_seq_handles_dense (sources : List String) (α : Type)
    (isHip : Bool) (key : Nat) (mk src : String) (c : Nat) :
    (runCreates ⟨none⟩ sources).fst = List.range sources.length
  ∧ (JitKernel.create α isHip key mk ⟨none⟩ src).didInit = true
  ∧ (JitKernel.create α isHip key mk ⟨none⟩ src).handle = 0
  ∧ (JitKernel.create α isHip key mk ⟨none⟩ src).state = ⟨some 1⟩
  ∧ (JitKernel.create α isHip key mk ⟨some c⟩ src).didInit = false
  ∧ (JitKernel.create α isHip key mk ⟨some c⟩ src).handle = c
  ∧ (JitKernel.create α isHip key mk ⟨some c⟩ src).state = ⟨some (c + 1)⟩ := by
  refine ⟨?_, rfl, rfl, rfl, rfl, rfl, rfl⟩
  cases sources with
  | nil => rfl
  | cons s rest =>
    show 0 :: (runCreates ⟨some 1⟩ rest).fst = List.range (rest.length + 1)
    rw [runCreates_fst_of_some rest 1, List.range_eq_range', List.range'_succ]

/-- C2: the recognized artifact path is a pure function of the handle (and,
in the distributed variant, the identity key): `create` always renames to
`/tmp/<handle>-<key>.cu` (distributed) resp. `/tmp/<handle>.cu`
(non-distributed), so two calls that end up with the same handle (and key)
place the artifact at the same recognized path, whatever their other
inputs. -/
theorem recognized_path_pure (α₁ α₂ : Type) (h₁ h₂ : Bool) (k : Nat)
    (m₁ m₂ : String) (s₁ s₂ : JitClassState) (t₁ t₂ : String)
    (hdist : (JitKernel.create α₁ h₁ k m₁ s₁ t₁).handle
           = (JitKernel.create α₂ h₂ k m₂ s₂ t₂).handle)
    (hnon : (JitKernel.createN α₁ h₁ m₁ s₁ t₁).handle
          = (JitKernel.createN α₂ h₂ m₂ s₂ t₂).handle) :
    (JitKernel.create α₁ h₁ k m₁ s₁ t₁).finalPath
      = recognizedPathDist (JitKernel.create α₁ h₁ k m₁ s₁ t₁).handle k
  ∧ (JitKernel.createN α₁ h₁ m₁ s₁ t₁).finalPath
      = recognizedPathNonDist (JitKernel.createN α₁ h₁ m₁ s₁ t₁).handle
  ∧ (JitKernel.create α₁ h₁ k m₁ s₁ t₁).finalPath
      = (JitKernel.create α₂ h₂ k m₂ s₂ t₂).finalPath
  ∧ (JitKernel.createN α₁ h₁ m₁ s₁ t₁).finalPath
      = (JitKernel.createN α₂ h₂ m₂ s₂ t₂).finalPath := by
  refine ⟨rfl, rfl, ?_, ?_⟩
  · show recognizedPathDist (JitKernel.create α₁ h₁ k m₁ s₁ t₁).handle k
       = recognizedPathDist (JitKernel.create α₂ h₂ k m₂ s₂ t₂).handle k
    rw [hdist]
  · show recognizedPathNonDist (JitKernel.createN α₁ h₁ m₁ s₁ t₁).handle
       = recognizedPathNonDist (JitKernel.createN α₂ h₂ m₂ s₂ t₂).handle
    rw [hnon]

/-- C2 (witness): two `create` calls with different platform flags, temp
names and sources but the same counter state mint the same handle and
stage at the same recognized path. -/
theorem recognized_path_pure_witness :
    (JitKernel.create Unit true 3 "/tmp/tmpX" ⟨some 2⟩ "srcA").finalPath
      = (JitKernel.create Unit false 3 "/tmp/tmpY" ⟨some 2⟩ "srcB").finalPath :=
  (recognized_path_pure Unit Unit true false 3 "/tmp/tmpX" "/tmp/tmpY"
    ⟨some 2⟩ ⟨some 2⟩ "srcA" "srcB" rfl rfl).2.2.1

/-- C3: each `create` call writes the complete text to a throwaway temp
name (suffix `.MoE`, never equal to the recognized `.cu` name) and only
then moves it to the recognized name by the single final `os.rename`;
replaying any prefix of the event trace, an external reader of the
recognized path sees either no file or the complete content — never a
partially written state.  Both variants. -/
theorem staging_atomic (α : Type) (isHip : Bool) (key : Nat)
    (mk : String) (st : JitClassState) (src : String) :
    ((JitKernel.create α isHip key mk st src).tempPath
       == (JitKernel.create α isHip key mk st src).finalPath) = false
  ∧ (JitKernel.create α isHip key mk st src).events
      = [FsEvent.openWrite (JitKernel.create α isHip key mk st src).tempPath,
         FsEvent.write (JitKernel.create α isHip key mk st src).tempPath (preamble isHip),
         FsEvent.write (JitKernel.create α isHip key mk st src).tempPath src,
         FsEvent.close (JitKernel.create α isHip key mk st src).tempPath,
         FsEvent.rename (JitKernel.create α isHip key mk st src).tempPath
           (JitKernel.create α isHip key mk st src).finalPath]
  ∧ (∀ i : Nat,
      fsGet (JitKernel.create α isHip key mk st src).finalPath
          (runEvents [] (List.take i (JitKernel.create α isHip key mk st src).events)) = none
    ∨ fsGet (JitKernel.create α isHip key mk st src).finalPath
          (runEvents [] (List.take i (JitKernel.create α isHip key mk st src).events))
        = some (JitKernel.create α isHip key mk st src).fileContent)
  ∧ ((JitKernel.createN α isHip mk st src).tempPath
       == (JitKernel.createN α isHip mk st src).finalPath) = false
  ∧ (∀ i : Nat,
      fsGet (JitKernel.createN α isHip mk st src).finalPath
          (runEvents [] (List.take i (JitKernel.createN α isHip mk st src).events)) = none
    ∨ fsGet (JitKernel.createN α isHip mk st src).finalPath
          (runEvents [] (List.take i (JitKernel.createN α isHip mk st src).events))
        = some (JitKernel.createN α isHip mk st src).fileContent) := by
  refine ⟨beq_eq_false_iff_ne.mpr (temp_suffix_ne _ _), rfl,
    fun i => staged_trace_safe _ _ _ _ (temp_suffix_ne _ _) i,
    beq_eq_false_iff_ne.mpr (temp_suffix_ne _ _),
    fun i => staged_trace_safe _ _ _ _ (temp_suffix_ne _ _) i⟩

/-- C4: the staged file content is exactly the platform preamble (the HIP
runtime/fp16 include pair when `IS_HIP_EXTENSION`, otherwise the CUDA
runtime/fp16 include pair — two distinct, mutually exclusive choices)
concatenated with the caller's source text unchanged.  Both variants. -/
theorem file_content_is_preamble_source (α : Type) (isHip : Bool) (key : Nat)
    (mk : String) (st : JitClassState) (src : String) :
    (JitKernel.create α isHip key mk st src).fileContent
      = (if isHip then hipPreamble else cudaPreamble) ++ src
  ∧ (JitKernel.createN α isHip mk st src).fileContent
      = (if isHip then hipPreamble else cudaPreamble) ++ src
  ∧ hipPreamble
      = "#include <hip/hip_runtime.h>\n#include <hip/hip_fp16.h>\n"
  ∧ cudaPreamble
      = "#include <cuda_runtime.h>\n#include <cuda_fp16.h>\n"
  ∧ (hipPreamble == cudaPreamble) = false :=
  ⟨rfl, rfl, rfl, rfl, by decide⟩

/-- C5: the bound callable returned by `create` forwards exactly the buffer
list it is invoked with — the same list, order and elements untouched — to
the backend's invoke entry point, together with the handle captured at
creation (and, in the distributed variant, the captured identity key). -/
theorem bound_callable_forwards (α : Type) (isHip : Bool) (key : Nat)
    (mk : String) (st : JitClassState) (src : String) (bufs : List α) :
    (JitKernel.create α isHip key mk st src).func bufs
      = { buffers := bufs
          handle := (JitKernel.create α isHip key mk st src).handle
          key := key }
  ∧ (JitKernel.createN α isHip mk st src).func bufs
      = { buffers := bufs
          handle := (JitKernel.createN α isHip mk st src).handle } :=
  ⟨rfl, rfl⟩

/-- C6 (counterexample): the placeholder token the code substitutes is
`@capacity@`, not `@CAP@`; on the claim's template `"cap=@CAP@;"` with
capacity 128 the substitution leaves the text unchanged, which differs
from the claimed result `"cap=128;"`. -/
theorem substitution_token_cex :
    specializeSource "cap=@CAP@;" 128 = "cap=@CAP@;"
  ∧ (specializeSource "cap=@CAP@;" 128 == "cap=128;") = false := by
  constructor
  · decide
  · decide

/-- C6 (amended): substitution is purely textual — every occurrence of the
placeholder token `@capacity@` is replaced by the decimal string form of
the capacity, with no other validation; in particular the template
`"cap=@capacity@;"` with capacity 128 yields `"cap=128;"`, and a template
with two occurrences has both replaced. -/
theorem substitution_textual :
    specializeSource "cap=@capacity@;" 128 = "cap=128;"
  ∧ specializeSource "a=@capacity@; b=@capacity@;" 7 = "a=7; b=7;"
  ∧ (∀ template capacity, specializeSource template capacity
      = pyReplace template "@capacity@" (toString capacity)) := by
  refine ⟨by decide, by decide, fun _ _ => rfl⟩

/-- C7: when the native backend extension module is missing, module import
fails at once — the distributed variant re-raises with a message naming
the missing Custom Kernel Extension, the non-distributed variant
propagates the import error unchanged — and no module value (hence no
`JitKernel.create` call and no bound callable) is ever produced. -/
theorem missing_backend_fatal (e : String) (hip : Except String Bool)
    (rank : Except String Nat) :
    tutelJitModuleInit true (Except.error e) hip rank = Except.error missingKernelMsg
  ∧ (tutelJitModuleInit true (Except.error e) hip rank).isOk = false
  ∧ moeJitModuleInit (Except.error e) hip = Except.error e
  ∧ (moeJitModuleInit (Except.error e) hip).isOk = false
  ∧ missingKernelMsg
      = "Cannot import JIT optimized kernels. Did you forget to install Custom Kernel Extension?"
  ∧ (∃ a b : String,
      missingKernelMsg = a ++ ("Custom Kernel Extension" ++ b)) :=
  ⟨rfl, rfl, rfl, rfl, rfl,
    ⟨"Cannot import JIT optimized kernels. Did you forget to install ", "?",
      by decide⟩⟩

/-- C8: when querying the distributed rank fails, `dist_rank` defaults to
0, and a `create` call in such a process stages at the recognized path
derived with identity 0 and forwards identity 0 on every backend invoke. -/
theorem default_rank_zero (e : String) (α : Type) (isHip : Bool)
    (mk : String) (st : JitClassState) (src : String) (bufs : List α)
    (hip : Except String Bool) :
    resolveDistRank (Except.error e) = 0
  ∧ tutelJitModuleInit true (Except.ok ()) hip (Except.error e)
      = Except.ok { isHip := resolveIsHip hip, distRank := 0, jitState := ⟨none⟩ }
  ∧ (JitKernel.create α isHip (resolveDistRank (Except.error e)) mk st src).finalPath
      = recognizedPathDist
          (JitKernel.create α isHip (resolveDistRank (Except.error e)) mk st src).handle 0
  ∧ (JitKernel.create α isHip (resolveDistRank (Except.error e)) mk st src).func bufs
      = { buffers := bufs
          handle := (JitKernel.create α isHip (resolveDistRank (Except.error e)) mk st src).handle
          key := 0 } :=
  ⟨rfl, rfl, rfl, rfl⟩

/-- C9: when the `IS_HIP_EXTENSION` import fails, no error is raised: the
flag defaults to false (the CUDA family), preamble selection still
succeeds and yields the CUDA include pair, and `create` stages the CUDA
preamble plus the source. -/
theorem default_platform_cuda (e : String) (α : Type) (key : Nat)
    (mk : String) (st : JitClassState) (src : String) :
    resolveIsHip (Except.error e) = false
  ∧ preamble (resolveIsHip (Except.error e)) = cudaPreamble
  ∧ (JitKernel.create α (resolveIsHip (Except.error e)) key mk st src).fileContent
      = cudaPreamble ++ src
  ∧ (JitKernel.createN α (resolveIsHip (Except.error e)) mk st src).fileContent
      = cudaPreamble ++ src :=
  ⟨rfl, rfl, rfl, rfl⟩

/-- C10: importing the distributed JIT module without CUDA device support
fails on the line-6 assertion — whatever the other ambient conditions —
with the message naming CUDA as the only supported backend; no module
value is produced, so no handle is ever minted and no artifact staged in
such a process. -/
theorem import_asserts_cuda (ck : Except String Unit)
    (hip : Except String Bool) (rank : Except String Nat) :
    tutelJitModuleInit false ck hip rank = Except.error cudaAssertMsg
  ∧ (tutelJitModuleInit false ck hip rank).isOk = false
  ∧ cudaAssertMsg
      = "This version of Tutel MoE only supports CUDA. More backends will be supported soon."
  ∧ (∃ a b : String, cudaAssertMsg = a ++ ("CUDA" ++ b)) :=
  ⟨rfl, rfl, rfl,
    ⟨"This version of Tutel MoE only supports ",
      ". More backends will be supported soon.", by decide⟩⟩

end Tutel
